import Mathlib

/-!
Shallow embedding of the two Rust NIF adapters in
`src/native/dprint_markdown_formatter/src/lib.rs` (strict map variant) and
`src/native/dprint_markdown_formatter_nif/src/lib.rs` (permissive keyword-list
variant).  Host (Elixir) runtime values are modelled by the inductive `Term`;
the external formatting engine (`dprint_plugin_markdown::format_text`, out of
scope of the repository) is modelled as an explicit function parameter of type
`Engine`, so that theorems can quantify over every possible engine behaviour.
The code always supplies the no-op code-block resolver `|_, _, _| Ok(None)` to
`format_text`, so the resolver is not a varying parameter of the model.
-/

/-- An Elixir runtime value as seen through rustler's `Term`: integers, atoms,
binaries (strings), tuples and proper lists are the shapes this code inspects. -/
inductive Term where
  | int (n : Int)
  | atom (s : String)
  | str (s : String)
  | tuple (ts : List Term)
  | list (ts : List Term)

/-- rustler `term.decode::<u32>()`: succeeds exactly on integers in `[0, 2^32)`. -/
def decodeU32 : Term → Option Nat
  | .int n => if 0 ≤ n ∧ n < 2 ^ 32 then some n.toNat else none
  | _ => none

/-- rustler `term.decode::<Atom>()`: succeeds exactly on atoms. -/
def decodeAtom : Term → Option String
  | .atom s => some s
  | _ => none

/-- rustler `term.decode::<String>()`: succeeds exactly on binaries. -/
def decodeStr : Term → Option String
  | .str s => some s
  | _ => none

/-- `dprint_plugin_markdown::configuration::TextWrap`. -/
inductive TextWrap where
  | Always | Never | Maintain
deriving DecidableEq

/-- `dprint_plugin_markdown::configuration::EmphasisKind`. -/
inductive EmphasisKind where
  | Asterisks | Underscores
deriving DecidableEq

/-- `dprint_plugin_markdown::configuration::StrongKind`. -/
inductive StrongKind where
  | Asterisks | Underscores
deriving DecidableEq

/-- `dprint_core::configuration::NewLineKind`. -/
inductive NewLineKind where
  | Auto | LineFeed | CarriageReturnLineFeed
deriving DecidableEq

/-- `dprint_plugin_markdown::configuration::UnorderedListKind`. -/
inductive UnorderedListKind where
  | Dashes | Asterisks
deriving DecidableEq

/-- `dprint_plugin_markdown::configuration::Configuration`, the record handed
to the external formatter. -/
structure Configuration where
  line_width : Nat
  text_wrap : TextWrap
  emphasis_kind : EmphasisKind
  strong_kind : StrongKind
  new_line_kind : NewLineKind
  unordered_list_kind : UnorderedListKind
  ignore_directive : String
  ignore_start_directive : String
  ignore_end_directive : String
  ignore_file_directive : String
deriving DecidableEq

/-- The external engine `format_text` viewed from the adapter: given the text
and a configuration it returns `Ok(Some new)` (changed), `Ok(None)` (no change
needed) or `Err(msg)`.  The adapters never vary the code-block resolver, so it
is omitted. -/
abbrev Engine := String → Configuration → Except String (Option String)

namespace MarkdownFormatter

/-- The strict variant's `HashMap<Atom, Term>` config argument, modelled by its
only observable use here: `map.get(&key)`. -/
abbrev ConfigMap := String → Option Term

/-- Lines 47-51 of the strict variant: fetch and decode `line_width`. -/
def build_line_width (map : ConfigMap) : Except String Nat :=
  match map "line_width" with
  | none => .error "Missing line_width"
  | some t =>
    match decodeU32 t with
    | none => .error "Invalid line_width"
    | some w => .ok w

/-- `build_text_wrap` (strict variant, lines 74-89). -/
def build_text_wrap (map : ConfigMap) : Except String TextWrap :=
  match map "text_wrap" with
  | none => .error "Missing text_wrap"
  | some t =>
    match decodeAtom t with
    | none => .error "Invalid text_wrap"
    | some a =>
      if a = "always" then .ok .Always
      else if a = "never" then .ok .Never
      else if a = "maintain" then .ok .Maintain
      else .error "Invalid text_wrap value"

/-- `build_emphasis_kind` (strict variant, lines 92-110). -/
def build_emphasis_kind (map : ConfigMap) : Except String EmphasisKind :=
  match map "emphasis_kind" with
  | none => .error "Missing emphasis_kind"
  | some t =>
    match decodeAtom t with
    | none => .error "Invalid emphasis_kind"
    | some a =>
      if a = "asterisks" then .ok .Asterisks
      else if a = "underscores" then .ok .Underscores
      else .error "Invalid emphasis_kind value"

/-- `build_strong_kind` (strict variant, lines 113-131). -/
def build_strong_kind (map : ConfigMap) : Except String StrongKind :=
  match map "strong_kind" with
  | none => .error "Missing strong_kind"
  | some t =>
    match decodeAtom t with
    | none => .error "Invalid strong_kind"
    | some a =>
      if a = "asterisks" then .ok .Asterisks
      else if a = "underscores" then .ok .Underscores
      else .error "Invalid strong_kind value"

/-- `build_new_line_kind` (strict variant, lines 134-147). -/
def build_new_line_kind (map : ConfigMap) : Except String NewLineKind :=
  match map "new_line_kind" with
  | none => .error "Missing new_line_kind"
  | some t =>
    match decodeAtom t with
    | none => .error "Invalid new_line_kind"
    | some a =>
      if a = "auto" then .ok .Auto
      else if a = "lf" then .ok .LineFeed
      else if a = "crlf" then .ok .CarriageReturnLineFeed
      else .error "Invalid new_line_kind value"

/-- `build_unordered_list_kind` (strict variant, lines 150-168). -/
def build_unordered_list_kind (map : ConfigMap) : Except String UnorderedListKind :=
  match map "unordered_list_kind" with
  | none => .error "Missing unordered_list_kind"
  | some t =>
    match decodeAtom t with
    | none => .error "Invalid unordered_list_kind"
    | some a =>
      if a = "dashes" then .ok .Dashes
      else if a = "asterisks" then .ok .Asterisks
      else .error "Invalid unordered_list_kind value"

/-- `build_dprint_config` (strict variant, lines 46-71): the six fields are
fetched in source order, each `?` propagating the first error. -/
def build_dprint_config (map : ConfigMap) : Except String Configuration :=
  match build_line_width map with
  | .error e => .error e
  | .ok lw =>
    match build_text_wrap map with
    | .error e => .error e
    | .ok tw =>
      match build_emphasis_kind map with
      | .error e => .error e
      | .ok ek =>
        match build_strong_kind map with
        | .error e => .error e
        | .ok sk =>
          match build_new_line_kind map with
          | .error e => .error e
          | .ok nk =>
            match build_unordered_list_kind map with
            | .error e => .error e
            | .ok uk =>
              .ok { line_width := lw
                    text_wrap := tw
                    emphasis_kind := ek
                    strong_kind := sk
                    new_line_kind := nk
                    unordered_list_kind := uk
                    ignore_directive := "dprint-ignore"
                    ignore_start_directive := "dprint-ignore-start"
                    ignore_end_directive := "dprint-ignore-end"
                    ignore_file_directive := "dprint-ignore-file" }

/-- `format_markdown` (strict variant, lines 29-42): early return for empty
text, then build the configuration, then call the engine; an engine error is
prefixed with "Formatting failed: ", and `result.unwrap_or(text)` returns the
input when the engine reports no change. -/
def format_markdown (text : String) (config : ConfigMap) (engine : Engine) :
    Except String String :=
  if text = "" then .ok text
  else
    match build_dprint_config config with
    | .error e => .error e
    | .ok cfg =>
      match engine text cfg with
      | .error e => .error ("Formatting failed: " ++ e)
      | .ok r => .ok (r.getD text)

/-- The six configurable fields of the strict variant. -/
inductive ConfigField where
  | lineWidth | textWrap | emphasisKind | strongKind | newLineKind | unorderedListKind
deriving DecidableEq, Fintype

/-- The map key / error-message name of each field. -/
def fieldName : ConfigField → String
  | .lineWidth => "line_width"
  | .textWrap => "text_wrap"
  | .emphasisKind => "emphasis_kind"
  | .strongKind => "strong_kind"
  | .newLineKind => "new_line_kind"
  | .unorderedListKind => "unordered_list_kind"

/-- Position of each field in `build_dprint_config`'s check order. -/
def fieldIdx : ConfigField → Nat
  | .lineWidth => 0
  | .textWrap => 1
  | .emphasisKind => 2
  | .strongKind => 3
  | .newLineKind => 4
  | .unorderedListKind => 5

/-- Whether an `Except` result is a success. -/
def isOkB : Except String α → Bool
  | .ok _ => true
  | .error _ => false

/-- Whether the strict per-field builder for `f` succeeds on `map`. -/
def fieldOk (map : ConfigMap) : ConfigField → Bool
  | .lineWidth => isOkB (build_line_width map)
  | .textWrap => isOkB (build_text_wrap map)
  | .emphasisKind => isOkB (build_emphasis_kind map)
  | .strongKind => isOkB (build_strong_kind map)
  | .newLineKind => isOkB (build_new_line_kind map)
  | .unorderedListKind => isOkB (build_unordered_list_kind map)

end MarkdownFormatter

namespace MarkdownFormatterNif

/-- `FormatOptions` (permissive variant, lines 15-23). -/
structure FormatOptions where
  line_width : Option Nat := none
  text_wrap : Option String := none
  emphasis_kind : Option String := none
  strong_kind : Option String := none
  new_line_kind : Option String := none
  unordered_list_kind : Option String := none
deriving DecidableEq

/-- `FormatOptions::default()`: every field absent. -/
def FormatOptions.default : FormatOptions := {}

/-- Decoding one keyword-list element as `(Atom, Term)`: a 2-tuple whose
first component is an atom. -/
def decodeAtomPair : Term → Option (String × Term)
  | .tuple [.atom k, v] => some (k, v)
  | _ => none

/-- Decoding one keyword-list element as `(String, Term)`: a 2-tuple whose
first component is a binary. -/
def decodeStrPair : Term → Option (String × Term)
  | .tuple [.str k, v] => some (k, v)
  | _ => none

/-- `options.decode::<Vec<(Atom, Term)>>()`: a proper list, every element a
2-tuple with an atom key. -/
def decodeAtomKW : Term → Option (List (String × Term))
  | .list ts => ts.mapM decodeAtomPair
  | _ => none

/-- `options.decode::<Vec<(String, Term)>>()`: a proper list, every element a
2-tuple with a binary key. -/
def decodeStrKW : Term → Option (List (String × Term))
  | .list ts => ts.mapM decodeStrPair
  | _ => none

/-- One iteration of the `parse_options` loop (lines 30-56 and 59-93: the atom
branch and the string branch perform the identical key match and value
decoding once the key's name is extracted).  A recognized key whose value
decodes to the expected type overwrites the field; otherwise the accumulator is
unchanged. -/
def applyPair (fo : FormatOptions) (p : String × Term) : FormatOptions :=
  if p.1 = "line_width" then
    match decodeU32 p.2 with
    | some w => { fo with line_width := some w }
    | none => fo
  else if p.1 = "text_wrap" then
    match decodeStr p.2 with
    | some s => { fo with text_wrap := some s }
    | none => fo
  else if p.1 = "emphasis_kind" then
    match decodeStr p.2 with
    | some s => { fo with emphasis_kind := some s }
    | none => fo
  else if p.1 = "strong_kind" then
    match decodeStr p.2 with
    | some s => { fo with strong_kind := some s }
    | none => fo
  else if p.1 = "new_line_kind" then
    match decodeStr p.2 with
    | some s => { fo with new_line_kind := some s }
    | none => fo
  else if p.1 = "unordered_list_kind" then
    match decodeStr p.2 with
    | some s => { fo with unordered_list_kind := some s }
    | none => fo
  else fo

/-- `parse_options` (lines 25-97): try the atom-keyed keyword list, fall back
to the string-keyed one, otherwise keep all defaults.  It can never fail. -/
def parse_options (options : Term) : FormatOptions :=
  match decodeAtomKW options with
  | some kws => kws.foldl applyPair FormatOptions.default
  | none =>
    match decodeStrKW options with
    | some kws => kws.foldl applyPair FormatOptions.default
    | none => FormatOptions.default

/-- The `Configuration` literal of the permissive `format_markdown`
(lines 104-134): defaults overridden by recognized options. -/
def buildConfig (opts : FormatOptions) : Configuration :=
  { line_width := opts.line_width.getD 80
    text_wrap :=
      match opts.text_wrap with
      | some "never" => .Never
      | some "maintain" => .Maintain
      | _ => .Always
    emphasis_kind :=
      match opts.emphasis_kind with
      | some "underscores" => .Underscores
      | _ => .Asterisks
    strong_kind :=
      match opts.strong_kind with
      | some "underscores" => .Underscores
      | _ => .Asterisks
    new_line_kind :=
      match opts.new_line_kind with
      | some "lf" => .LineFeed
      | some "crlf" => .CarriageReturnLineFeed
      | _ => .Auto
    unordered_list_kind :=
      match opts.unordered_list_kind with
      | some "asterisks" => .Asterisks
      | _ => .Dashes
    ignore_directive := "dprint-ignore"
    ignore_start_directive := "dprint-ignore-start"
    ignore_end_directive := "dprint-ignore-end"
    ignore_file_directive := "dprint-ignore-file" }

/-- `format_markdown` (permissive variant, lines 99-142): parse options, build
the configuration, call the engine.  Note there is no empty-text early return
in this variant. -/
def format_markdown (text : String) (options : Term) (engine : Engine) :
    Except String String :=
  let config := buildConfig (parse_options options)
  match engine text config with
  | .ok (some formatted) => .ok formatted
  | .ok none => .ok text
  | .error e => .error ("Formatting error: " ++ e)

/-- The six key names the permissive parser recognizes. -/
def recognizedKey (k : String) : Bool :=
  k = "line_width" || k = "text_wrap" || k = "emphasis_kind" ||
  k = "strong_kind" || k = "new_line_kind" || k = "unordered_list_kind"

/-- One step of the specification-side fold below: an occurrence of key `k`
whose value decodes replaces the accumulator; any other pair leaves it. -/
def decodeStep (k : String) (dec : Term → Option α)
    (acc : Option α) (p : String × Term) : Option α :=
  if p.1 = k then
    match dec p.2 with
    | some v => some v
    | none => acc
  else acc

/-- Specification-side description of the permissive parser's per-field
outcome: the value of the last occurrence of key `k` whose value decodes,
starting from `init`; occurrences that fail to decode are skipped. -/
def lastDecodedValue (k : String) (dec : Term → Option α)
    (kws : List (String × Term)) (init : Option α) : Option α :=
  kws.foldl (decodeStep k dec) init

end MarkdownFormatterNif

/-- An engine with constant behaviour, for concrete witnesses. -/
def constEngine (r : Except String (Option String)) : Engine := fun _ _ => r

/-- The default configuration named by the spec's permissive-policy table:
line_width 80, text_wrap always, emphasis asterisks, strong asterisks,
new line auto, unordered list dashes, plus the fixed ignore directives. -/
def defaultConfiguration : Configuration :=
  { line_width := 80
    text_wrap := .Always
    emphasis_kind := .Asterisks
    strong_kind := .Asterisks
    new_line_kind := .Auto
    unordered_list_kind := .Dashes
    ignore_directive := "dprint-ignore"
    ignore_start_directive := "dprint-ignore-start"
    ignore_end_directive := "dprint-ignore-end"
    ignore_file_directive := "dprint-ignore-file" }

/-- A fully valid strict config map, used by witnesses. -/
def sampleMap : MarkdownFormatter.ConfigMap := fun k =>
  if k = "line_width" then some (.int 80)
  else if k = "text_wrap" then some (.atom "always")
  else if k = "emphasis_kind" then some (.atom "asterisks")
  else if k = "strong_kind" then some (.atom "asterisks")
  else if k = "new_line_kind" then some (.atom "auto")
  else if k = "unordered_list_kind" then some (.atom "dashes")
  else none

/-- `sampleMap` with `strong_kind` removed. -/
def sampleMapNoStrong : MarkdownFormatter.ConfigMap := fun k =>
  if k = "strong_kind" then none else sampleMap k

/-- `sampleMap` with `text_wrap` set to the out-of-enumeration atom
`sometimes`. -/
def sampleMapBadWrap : MarkdownFormatter.ConfigMap := fun k =>
  if k = "text_wrap" then some (.atom "sometimes") else sampleMap k

/-- C1 counterexample: the permissive variant has no empty-text early return —
with empty text and an engine that fails, its `format_markdown` invokes the
engine and returns the engine's error instead of the empty string. -/
theorem nif_empty_text_reaches_engine :
    MarkdownFormatterNif.format_markdown "" (Term.list []) (constEngine (.error "boom")) =
      .error "Formatting error: boom" := rfl

/-- C1 (amended): for every configuration map, the strict variant's
`format_markdown` on empty text returns the empty string with a result
independent of the engine (the engine is never consulted); the permissive
variant instead always passes the text — empty included — to the engine, so an
engine error on empty input surfaces as a "Formatting error: " value. -/
theorem empty_text_short_circuit :
    (∀ (m : MarkdownFormatter.ConfigMap) (e1 e2 : Engine),
        MarkdownFormatter.format_markdown "" m e1 = .ok "" ∧
        MarkdownFormatter.format_markdown "" m e1 = MarkdownFormatter.format_markdown "" m e2) ∧
    (∀ (options : Term) (msg : String),
        MarkdownFormatterNif.format_markdown "" options (constEngine (.error msg)) =
          .error ("Formatting error: " ++ msg)) :=
  ⟨fun _ _ _ => ⟨rfl, rfl⟩, fun _ _ => rfl⟩

/-- C9: in the strict variant the empty-text early return precedes
configuration validation — on empty text `format_markdown` succeeds with the
empty string even when `build_dprint_config` rejects the map, and any error it
ever returns is for non-empty text. -/
theorem strict_empty_precedes_validation
    (m : MarkdownFormatter.ConfigMap) (engine : Engine) (e : String)
    (_hbad : MarkdownFormatter.build_dprint_config m = .error e) :
    MarkdownFormatter.format_markdown "" m engine = .ok "" ∧
    ∀ (text : String) (eng : Engine) (msg : String),
      MarkdownFormatter.format_markdown text m eng = .error msg → text ≠ "" := by
  constructor
  · rfl
  · intro text eng msg hfmt htext
    subst htext
    have hok : MarkdownFormatter.format_markdown "" m eng = .ok "" := rfl
    rw [hok] at hfmt
    exact Except.noConfusion hfmt

/-- Witness for C9 at a concrete invalid map (missing `strong_kind`). -/
theorem strict_empty_precedes_validation_witness :
    MarkdownFormatter.format_markdown "" sampleMapNoStrong (constEngine (.ok none)) = .ok "" :=
  (strict_empty_precedes_validation sampleMapNoStrong (constEngine (.ok none))
    "Missing strong_kind" rfl).1

/-- C8: every configuration record either adapter constructs carries the four
fixed ignore directives `dprint-ignore`, `dprint-ignore-start`,
`dprint-ignore-end`, `dprint-ignore-file`; no host input reaches them. -/
theorem ignore_directives_fixed :
    (∀ (m : MarkdownFormatter.ConfigMap) (cfg : Configuration),
        MarkdownFormatter.build_dprint_config m = .ok cfg →
        cfg.ignore_directive = "dprint-ignore" ∧
        cfg.ignore_start_directive = "dprint-ignore-start" ∧
        cfg.ignore_end_directive = "dprint-ignore-end" ∧
        cfg.ignore_file_directive = "dprint-ignore-file") ∧
    (∀ opts : MarkdownFormatterNif.FormatOptions,
        (MarkdownFormatterNif.buildConfig opts).ignore_directive = "dprint-ignore" ∧
        (MarkdownFormatterNif.buildConfig opts).ignore_start_directive = "dprint-ignore-start" ∧
        (MarkdownFormatterNif.buildConfig opts).ignore_end_directive = "dprint-ignore-end" ∧
        (MarkdownFormatterNif.buildConfig opts).ignore_file_directive = "dprint-ignore-file") := by
  constructor
  · intro m cfg h
    unfold MarkdownFormatter.build_dprint_config at h
    repeat' split at h
    all_goals first
      | exact Except.noConfusion h
      | (injection h with h2; subst h2; exact ⟨rfl, rfl, rfl, rfl⟩)
  · intro opts
    exact ⟨rfl, rfl, rfl, rfl⟩

/-- Witness for C8: the strict build on a concrete valid map, whose output is
`defaultConfiguration`, has the fixed directives. -/
theorem ignore_directives_fixed_witness :
    defaultConfiguration.ignore_directive = "dprint-ignore" ∧
    defaultConfiguration.ignore_start_directive = "dprint-ignore-start" ∧
    defaultConfiguration.ignore_end_directive = "dprint-ignore-end" ∧
    defaultConfiguration.ignore_file_directive = "dprint-ignore-file" :=
  ignore_directives_fixed.1 sampleMap defaultConfiguration rfl

/-- A result satisfying `isOkB` is an `.ok`. -/
theorem isOkB_ok {α : Type} {r : Except String α}
    (h : MarkdownFormatter.isOkB r = true) : ∃ v, r = .ok v := by
  cases r with
  | ok v => exact ⟨v, rfl⟩
  | error e => exact absurd h (by simp [MarkdownFormatter.isOkB])

/-- A result failing `isOkB` is an `.error`. -/
theorem isOkB_error {α : Type} {r : Except String α}
    (h : MarkdownFormatter.isOkB r = false) : ∃ e, r = .error e := by
  cases r with
  | ok v => exact absurd h (by simp [MarkdownFormatter.isOkB])
  | error e => exact ⟨e, rfl⟩

/-- C2: strict policy — when a field is absent from the map and every field
checked before it succeeds, `build_dprint_config` fails with the
"Missing <field>" error naming that field, and for non-empty text
`format_markdown` returns that error for every engine (so no configuration is
produced and no formatting is attempted). -/
theorem strict_missing_field
    (f : MarkdownFormatter.ConfigField) (m : MarkdownFormatter.ConfigMap)
    (text : String) (engine : Engine)
    (hne : text ≠ "")
    (hbefore : ∀ g, MarkdownFormatter.fieldIdx g < MarkdownFormatter.fieldIdx f →
      MarkdownFormatter.fieldOk m g = true)
    (hmiss : m (MarkdownFormatter.fieldName f) = none) :
    MarkdownFormatter.build_dprint_config m =
      Except.error ("Missing " ++ MarkdownFormatter.fieldName f) ∧
    MarkdownFormatter.format_markdown text m engine =
      Except.error ("Missing " ++ MarkdownFormatter.fieldName f) := by
  have hbuild : MarkdownFormatter.build_dprint_config m =
      Except.error ("Missing " ++ MarkdownFormatter.fieldName f) := by
    cases f with
    | lineWidth =>
      simp only [MarkdownFormatter.fieldName] at hmiss
      have hx : MarkdownFormatter.build_line_width m = .error "Missing line_width" := by
        unfold MarkdownFormatter.build_line_width
        rw [hmiss]
      unfold MarkdownFormatter.build_dprint_config
      rw [hx]
      rfl
    | textWrap =>
      simp only [MarkdownFormatter.fieldName] at hmiss
      obtain ⟨lw, h0⟩ := isOkB_ok (hbefore .lineWidth (by decide))
      have hx : MarkdownFormatter.build_text_wrap m = .error "Missing text_wrap" := by
        unfold MarkdownFormatter.build_text_wrap
        rw [hmiss]
      unfold MarkdownFormatter.build_dprint_config
      rw [h0, hx]
      rfl
    | emphasisKind =>
      simp only [MarkdownFormatter.fieldName] at hmiss
      obtain ⟨lw, h0⟩ := isOkB_ok (hbefore .lineWidth (by decide))
      obtain ⟨tw, h1⟩ := isOkB_ok (hbefore .textWrap (by decide))
      have hx : MarkdownFormatter.build_emphasis_kind m = .error "Missing emphasis_kind" := by
        unfold MarkdownFormatter.build_emphasis_kind
        rw [hmiss]
      unfold MarkdownFormatter.build_dprint_config
      rw [h0, h1, hx]
      rfl
    | strongKind =>
      simp only [MarkdownFormatter.fieldName] at hmiss
      obtain ⟨lw, h0⟩ := isOkB_ok (hbefore .lineWidth (by decide))
      obtain ⟨tw, h1⟩ := isOkB_ok (hbefore .textWrap (by decide))
      obtain ⟨ek, h2⟩ := isOkB_ok (hbefore .emphasisKind (by decide))
      have hx : MarkdownFormatter.build_strong_kind m = .error "Missing strong_kind" := by
        unfold MarkdownFormatter.build_strong_kind
        rw [hmiss]
      unfold MarkdownFormatter.build_dprint_config
      rw [h0, h1, h2, hx]
      rfl
    | newLineKind =>
      simp only [MarkdownFormatter.fieldName] at hmiss
      obtain ⟨lw, h0⟩ := isOkB_ok (hbefore .lineWidth (by decide))
      obtain ⟨tw, h1⟩ := isOkB_ok (hbefore .textWrap (by decide))
      obtain ⟨ek, h2⟩ := isOkB_ok (hbefore .emphasisKind (by decide))
      obtain ⟨sk, h3⟩ := isOkB_ok (hbefore .strongKind (by decide))
      have hx : MarkdownFormatter.build_new_line_kind m = .error "Missing new_line_kind" := by
        unfold MarkdownFormatter.build_new_line_kind
        rw [hmiss]
      unfold MarkdownFormatter.build_dprint_config
      rw [h0, h1, h2, h3, hx]
      rfl
    | unorderedListKind =>
      simp only [MarkdownFormatter.fieldName] at hmiss
      obtain ⟨lw, h0⟩ := isOkB_ok (hbefore .lineWidth (by decide))
      obtain ⟨tw, h1⟩ := isOkB_ok (hbefore .textWrap (by decide))
      obtain ⟨ek, h2⟩ := isOkB_ok (hbefore .emphasisKind (by decide))
      obtain ⟨sk, h3⟩ := isOkB_ok (hbefore .strongKind (by decide))
      obtain ⟨nk, h4⟩ := isOkB_ok (hbefore .newLineKind (by decide))
      have hx : MarkdownFormatter.build_unordered_list_kind m =
          .error "Missing unordered_list_kind" := by
        unfold MarkdownFormatter.build_unordered_list_kind
        rw [hmiss]
      unfold MarkdownFormatter.build_dprint_config
      rw [h0, h1, h2, h3, h4, hx]
      rfl
  refine ⟨hbuild, ?_⟩
  unfold MarkdownFormatter.format_markdown
  rw [if_neg hne, hbuild]

/-- Witness for C2: omitting `strong_kind` from an otherwise valid map. -/
theorem strict_missing_field_witness :
    MarkdownFormatter.build_dprint_config sampleMapNoStrong =
      Except.error "Missing strong_kind" ∧
    MarkdownFormatter.format_markdown "# Title" sampleMapNoStrong (constEngine (.ok none)) =
      Except.error "Missing strong_kind" :=
  strict_missing_field .strongKind sampleMapNoStrong "# Title" (constEngine (.ok none))
    (by decide) (by decide) rfl

/-- C3: strict policy — when a field is present but its value fails to decode
or falls outside the field's enumeration (so its builder rejects it), and every
field checked before it succeeds, `build_dprint_config` fails with an
"Invalid <field>" or "Invalid <field> value" error naming that field, and for
non-empty text `format_markdown` returns that error for every engine, so no
formatting is attempted. -/
theorem strict_invalid_field
    (f : MarkdownFormatter.ConfigField) (m : MarkdownFormatter.ConfigMap)
    (text : String) (engine : Engine) (t : Term)
    (hne : text ≠ "")
    (hbefore : ∀ g, MarkdownFormatter.fieldIdx g < MarkdownFormatter.fieldIdx f →
      MarkdownFormatter.fieldOk m g = true)
    (hpresent : m (MarkdownFormatter.fieldName f) = some t)
    (hbad : MarkdownFormatter.fieldOk m f = false) :
    (MarkdownFormatter.build_dprint_config m =
        Except.error ("Invalid " ++ MarkdownFormatter.fieldName f) ∧
      MarkdownFormatter.format_markdown text m engine =
        Except.error ("Invalid " ++ MarkdownFormatter.fieldName f)) ∨
    (MarkdownFormatter.build_dprint_config m =
        Except.error ("Invalid " ++ MarkdownFormatter.fieldName f ++ " value") ∧
      MarkdownFormatter.format_markdown text m engine =
        Except.error ("Invalid " ++ MarkdownFormatter.fieldName f ++ " value")) := by
  cases f with
  | lineWidth =>
    simp only [MarkdownFormatter.fieldName] at hpresent
    obtain ⟨e0, he0⟩ := isOkB_error hbad
    have hchar : e0 = "Invalid line_width" := by
      unfold MarkdownFormatter.build_line_width at he0
      simp only [hpresent] at he0
      split at he0
      · exact (Except.error.inj he0).symm
      · exact Except.noConfusion he0
    subst hchar
    have hbuild : MarkdownFormatter.build_dprint_config m =
        Except.error "Invalid line_width" := by
      unfold MarkdownFormatter.build_dprint_config
      rw [he0]
    have hfmt : MarkdownFormatter.format_markdown text m engine =
        Except.error "Invalid line_width" := by
      unfold MarkdownFormatter.format_markdown
      rw [if_neg hne, hbuild]
    exact Or.inl ⟨hbuild, hfmt⟩
  | textWrap =>
    simp only [MarkdownFormatter.fieldName] at hpresent
    obtain ⟨lw, h0⟩ := isOkB_ok (hbefore .lineWidth (by decide))
    obtain ⟨e0, he0⟩ := isOkB_error hbad
    have hbuild : MarkdownFormatter.build_dprint_config m = Except.error e0 := by
      unfold MarkdownFormatter.build_dprint_config
      rw [h0, he0]
    have hfmt : MarkdownFormatter.format_markdown text m engine = Except.error e0 := by
      unfold MarkdownFormatter.format_markdown
      rw [if_neg hne, hbuild]
    have hchar : e0 = "Invalid text_wrap" ∨ e0 = "Invalid text_wrap value" := by
      unfold MarkdownFormatter.build_text_wrap at he0
      simp only [hpresent] at he0
      split at he0
      · exact Or.inl (Except.error.inj he0).symm
      · split at he0
        · exact Except.noConfusion he0
        · split at he0
          · exact Except.noConfusion he0
          · split at he0
            · exact Except.noConfusion he0
            · exact Or.inr (Except.error.inj he0).symm
    rcases hchar with h | h
    · subst h
      exact Or.inl ⟨hbuild, hfmt⟩
    · subst h
      exact Or.inr ⟨hbuild, hfmt⟩
  | emphasisKind =>
    simp only [MarkdownFormatter.fieldName] at hpresent
    obtain ⟨lw, h0⟩ := isOkB_ok (hbefore .lineWidth (by decide))
    obtain ⟨tw, h1⟩ := isOkB_ok (hbefore .textWrap (by decide))
    obtain ⟨e0, he0⟩ := isOkB_error hbad
    have hbuild : MarkdownFormatter.build_dprint_config m = Except.error e0 := by
      unfold MarkdownFormatter.build_dprint_config
      rw [h0, h1, he0]
    have hfmt : MarkdownFormatter.format_markdown text m engine = Except.error e0 := by
      unfold MarkdownFormatter.format_markdown
      rw [if_neg hne, hbuild]
    have hchar : e0 = "Invalid emphasis_kind" ∨ e0 = "Invalid emphasis_kind value" := by
      unfold MarkdownFormatter.build_emphasis_kind at he0
      simp only [hpresent] at he0
      split at he0
      · exact Or.inl (Except.error.inj he0).symm
      · split at he0
        · exact Except.noConfusion he0
        · split at he0
          · exact Except.noConfusion he0
          · exact Or.inr (Except.error.inj he0).symm
    rcases hchar with h | h
    · subst h
      exact Or.inl ⟨hbuild, hfmt⟩
    · subst h
      exact Or.inr ⟨hbuild, hfmt⟩
  | strongKind =>
    simp only [MarkdownFormatter.fieldName] at hpresent
    obtain ⟨lw, h0⟩ := isOkB_ok (hbefore .lineWidth (by decide))
    obtain ⟨tw, h1⟩ := isOkB_ok (hbefore .textWrap (by decide))
    obtain ⟨ek, h2⟩ := isOkB_ok (hbefore .emphasisKind (by decide))
    obtain ⟨e0, he0⟩ := isOkB_error hbad
    have hbuild : MarkdownFormatter.build_dprint_config m = Except.error e0 := by
      unfold MarkdownFormatter.build_dprint_config
      rw [h0, h1, h2, he0]
    have hfmt : MarkdownFormatter.format_markdown text m engine = Except.error e0 := by
      unfold MarkdownFormatter.format_markdown
      rw [if_neg hne, hbuild]
    have hchar : e0 = "Invalid strong_kind" ∨ e0 = "Invalid strong_kind value" := by
      unfold MarkdownFormatter.build_strong_kind at he0
      simp only [hpresent] at he0
      split at he0
      · exact Or.inl (Except.error.inj he0).symm
      · split at he0
        · exact Except.noConfusion he0
        · split at he0
          · exact Except.noConfusion he0
          · exact Or.inr (Except.error.inj he0).symm
    rcases hchar with h | h
    · subst h
      exact Or.inl ⟨hbuild, hfmt⟩
    · subst h
      exact Or.inr ⟨hbuild, hfmt⟩
  | newLineKind =>
    simp only [MarkdownFormatter.fieldName] at hpresent
    obtain ⟨lw, h0⟩ := isOkB_ok (hbefore .lineWidth (by decide))
    obtain ⟨tw, h1⟩ := isOkB_ok (hbefore .textWrap (by decide))
    obtain ⟨ek, h2⟩ := isOkB_ok (hbefore .emphasisKind (by decide))
    obtain ⟨sk, h3⟩ := isOkB_ok (hbefore .strongKind (by decide))
    obtain ⟨e0, he0⟩ := isOkB_error hbad
    have hbuild : MarkdownFormatter.build_dprint_config m = Except.error e0 := by
      unfold MarkdownFormatter.build_dprint_config
      rw [h0, h1, h2, h3, he0]
    have hfmt : MarkdownFormatter.format_markdown text m engine = Except.error e0 := by
      unfold MarkdownFormatter.format_markdown
      rw [if_neg hne, hbuild]
    have hchar : e0 = "Invalid new_line_kind" ∨ e0 = "Invalid new_line_kind value" := by
      unfold MarkdownFormatter.build_new_line_kind at he0
      simp only [hpresent] at he0
      split at he0
      · exact Or.inl (Except.error.inj he0).symm
      · split at he0
        · exact Except.noConfusion he0
        · split at he0
          · exact Except.noConfusion he0
          · split at he0
            · exact Except.noConfusion he0
            · exact Or.inr (Except.error.inj he0).symm
    rcases hchar with h | h
    · subst h
      exact Or.inl ⟨hbuild, hfmt⟩
    · subst h
      exact Or.inr ⟨hbuild, hfmt⟩
  | unorderedListKind =>
    simp only [MarkdownFormatter.fieldName] at hpresent
    obtain ⟨lw, h0⟩ := isOkB_ok (hbefore .lineWidth (by decide))
    obtain ⟨tw, h1⟩ := isOkB_ok (hbefore .textWrap (by decide))
    obtain ⟨ek, h2⟩ := isOkB_ok (hbefore .emphasisKind (by decide))
    obtain ⟨sk, h3⟩ := isOkB_ok (hbefore .strongKind (by decide))
    obtain ⟨nk, h4⟩ := isOkB_ok (hbefore .newLineKind (by decide))
    obtain ⟨e0, he0⟩ := isOkB_error hbad
    have hbuild : MarkdownFormatter.build_dprint_config m = Except.error e0 := by
      unfold MarkdownFormatter.build_dprint_config
      rw [h0, h1, h2, h3, h4, he0]
    have hfmt : MarkdownFormatter.format_markdown text m engine = Except.error e0 := by
      unfold MarkdownFormatter.format_markdown
      rw [if_neg hne, hbuild]
    have hchar : e0 = "Invalid unordered_list_kind" ∨
        e0 = "Invalid unordered_list_kind value" := by
      unfold MarkdownFormatter.build_unordered_list_kind at he0
      simp only [hpresent] at he0
      split at he0
      · exact Or.inl (Except.error.inj he0).symm
      · split at he0
        · exact Except.noConfusion he0
        · split at he0
          · exact Except.noConfusion he0
          · exact Or.inr (Except.error.inj he0).symm
    rcases hchar with h | h
    · subst h
      exact Or.inl ⟨hbuild, hfmt⟩
    · subst h
      exact Or.inr ⟨hbuild, hfmt⟩

/-- Witness for C3: `text_wrap` set to the out-of-enumeration atom
`sometimes`. -/
theorem strict_invalid_field_witness :
    (MarkdownFormatter.build_dprint_config sampleMapBadWrap =
        Except.error "Invalid text_wrap" ∧
      MarkdownFormatter.format_markdown "# Title" sampleMapBadWrap (constEngine (.ok none)) =
        Except.error "Invalid text_wrap") ∨
    (MarkdownFormatter.build_dprint_config sampleMapBadWrap =
        Except.error "Invalid text_wrap value" ∧
      MarkdownFormatter.format_markdown "# Title" sampleMapBadWrap (constEngine (.ok none)) =
        Except.error "Invalid text_wrap value") :=
  strict_invalid_field .textWrap sampleMapBadWrap "# Title" (constEngine (.ok none))
    (.atom "sometimes") (by decide) (by decide) rfl (by decide)

/-- C6: for non-empty text, an engine error surfaces as an error value whose
message is the engine's message behind the fixed prefix — "Formatting failed: "
in the strict variant (given a configuration the strict build accepts) and
"Formatting error: " in the permissive variant. -/
theorem engine_error_propagation
    (text : String) (engine : Engine) (e : String) (hne : text ≠ "") :
    (∀ (m : MarkdownFormatter.ConfigMap) (cfg : Configuration),
        MarkdownFormatter.build_dprint_config m = .ok cfg →
        engine text cfg = .error e →
        MarkdownFormatter.format_markdown text m engine =
          .error ("Formatting failed: " ++ e)) ∧
    (∀ options : Term,
        engine text
            (MarkdownFormatterNif.buildConfig (MarkdownFormatterNif.parse_options options)) =
          .error e →
        MarkdownFormatterNif.format_markdown text options engine =
          .error ("Formatting error: " ++ e)) := by
  constructor
  · intro m cfg hcfg heng
    unfold MarkdownFormatter.format_markdown
    rw [if_neg hne, hcfg]
    simp only [heng]
  · intro options heng
    simp only [MarkdownFormatterNif.format_markdown]
    rw [heng]

/-- Witness for C6: a constantly failing engine on concrete inputs. -/
theorem engine_error_propagation_witness :
    MarkdownFormatter.format_markdown "# Title" sampleMap (constEngine (.error "boom")) =
      Except.error "Formatting failed: boom" ∧
    MarkdownFormatterNif.format_markdown "# Title" (Term.list []) (constEngine (.error "boom")) =
      Except.error "Formatting error: boom" :=
  ⟨(engine_error_propagation "# Title" (constEngine (.error "boom")) "boom" (by decide)).1
      sampleMap defaultConfiguration rfl rfl,
    (engine_error_propagation "# Title" (constEngine (.error "boom")) "boom" (by decide)).2
      (Term.list []) rfl⟩

/-- C7: for non-empty text, when the engine reports no change needed
(`Ok(None)`), both variants return exactly the original input text as their
success value. -/
theorem no_change_passthrough
    (text : String) (engine : Engine) (hne : text ≠ "") :
    (∀ (m : MarkdownFormatter.ConfigMap) (cfg : Configuration),
        MarkdownFormatter.build_dprint_config m = .ok cfg →
        engine text cfg = .ok none →
        MarkdownFormatter.format_markdown text m engine = .ok text) ∧
    (∀ options : Term,
        engine text
            (MarkdownFormatterNif.buildConfig (MarkdownFormatterNif.parse_options options)) =
          .ok none →
        MarkdownFormatterNif.format_markdown text options engine = .ok text) := by
  constructor
  · intro m cfg hcfg heng
    unfold MarkdownFormatter.format_markdown
    rw [if_neg hne, hcfg]
    simp only [heng]
    rfl
  · intro options heng
    simp only [MarkdownFormatterNif.format_markdown]
    rw [heng]

/-- Witness for C7: a no-change engine on concrete inputs. -/
theorem no_change_passthrough_witness :
    MarkdownFormatter.format_markdown "# Title" sampleMap (constEngine (.ok none)) =
      .ok "# Title" ∧
    MarkdownFormatterNif.format_markdown "# Title" (Term.list []) (constEngine (.ok none)) =
      .ok "# Title" :=
  ⟨(no_change_passthrough "# Title" (constEngine (.ok none)) (by decide)).1
      sampleMap defaultConfiguration rfl rfl,
    (no_change_passthrough "# Title" (constEngine (.ok none)) (by decide)).2
      (Term.list []) rfl⟩

/-- A pair with an unrecognized key leaves the accumulated options unchanged. -/
theorem applyPair_unrecognized (fo : MarkdownFormatterNif.FormatOptions) (p : String × Term)
    (h : MarkdownFormatterNif.recognizedKey p.1 = false) :
    MarkdownFormatterNif.applyPair fo p = fo := by
  simp only [MarkdownFormatterNif.recognizedKey, Bool.or_eq_false_iff,
    decide_eq_false_iff_not] at h
  obtain ⟨⟨⟨⟨⟨h1, h2⟩, h3⟩, h4⟩, h5⟩, h6⟩ := h
  unfold MarkdownFormatterNif.applyPair
  rw [if_neg h1, if_neg h2, if_neg h3, if_neg h4, if_neg h5, if_neg h6]

/-- Folding `applyPair` over pairs whose keys are all unrecognized is the
identity. -/
theorem foldl_applyPair_unrecognized (kws : List (String × Term))
    (fo : MarkdownFormatterNif.FormatOptions)
    (h : ∀ p ∈ kws, MarkdownFormatterNif.recognizedKey p.1 = false) :
    kws.foldl MarkdownFormatterNif.applyPair fo = fo := by
  induction kws generalizing fo with
  | nil => rfl
  | cons p rest ih =>
    rw [List.foldl_cons, applyPair_unrecognized fo p (h p (List.mem_cons_self p rest))]
    exact ih fo fun q hq => h q (List.mem_cons_of_mem p hq)

/-- C4: permissive policy — when the options value holds no recognized key
(an atom- or string-keyed keyword list of unrecognized keys, an empty list, or
a value that decodes as neither kind of keyword list), the configuration the
permissive `format_markdown` hands the engine is exactly the default:
line_width 80, text_wrap always, emphasis asterisks, strong asterisks,
new line auto, unordered list dashes. -/
theorem permissive_default_config (options : Term)
    (h :
      (∃ kws, MarkdownFormatterNif.decodeAtomKW options = some kws ∧
        ∀ p ∈ kws, MarkdownFormatterNif.recognizedKey p.1 = false) ∨
      (MarkdownFormatterNif.decodeAtomKW options = none ∧
        ∃ kws, MarkdownFormatterNif.decodeStrKW options = some kws ∧
          ∀ p ∈ kws, MarkdownFormatterNif.recognizedKey p.1 = false) ∨
      (MarkdownFormatterNif.decodeAtomKW options = none ∧
        MarkdownFormatterNif.decodeStrKW options = none)) :
    MarkdownFormatterNif.buildConfig (MarkdownFormatterNif.parse_options options) =
      defaultConfiguration := by
  have hparse : MarkdownFormatterNif.parse_options options =
      MarkdownFormatterNif.FormatOptions.default := by
    rcases h with ⟨kws, hdec, hall⟩ | ⟨hnone, kws, hdec, hall⟩ | ⟨h1, h2⟩
    · unfold MarkdownFormatterNif.parse_options
      rw [hdec]
      exact foldl_applyPair_unrecognized kws _ hall
    · unfold MarkdownFormatterNif.parse_options
      rw [hnone, hdec]
      exact foldl_applyPair_unrecognized kws _ hall
    · unfold MarkdownFormatterNif.parse_options
      rw [h1, h2]
  rw [hparse]
  rfl

/-- Witness for C4: a keyword list with only the unrecognized key `bogus`. -/
theorem permissive_default_config_witness :
    MarkdownFormatterNif.buildConfig
        (MarkdownFormatterNif.parse_options
          (Term.list [Term.tuple [Term.atom "bogus", Term.int 1]])) =
      defaultConfiguration :=
  permissive_default_config (Term.list [Term.tuple [Term.atom "bogus", Term.int 1]])
    (Or.inl ⟨[("bogus", Term.int 1)], rfl, by decide⟩)

/-- C5: permissive policy — parsing never rejects an options value: every
error the permissive `format_markdown` returns comes from the engine call
(with the "Formatting error: " prefix), and a pair with an unrecognized key
may be dropped from the decoded keyword list without changing what
`parse_options` produces. -/
theorem permissive_never_fails
    (text : String) (engine : Engine) :
    (∀ (options : Term) (e : String),
        MarkdownFormatterNif.format_markdown text options engine = .error e →
        ∃ e0, engine text (MarkdownFormatterNif.buildConfig
            (MarkdownFormatterNif.parse_options options)) = .error e0 ∧
          e = "Formatting error: " ++ e0) ∧
    (∀ (options withoutKey : Term) (kws1 kws2 : List (String × Term)) (k : String) (v : Term),
        MarkdownFormatterNif.recognizedKey k = false →
        MarkdownFormatterNif.decodeAtomKW options = some (kws1 ++ (k, v) :: kws2) →
        MarkdownFormatterNif.decodeAtomKW withoutKey = some (kws1 ++ kws2) →
        MarkdownFormatterNif.parse_options options =
          MarkdownFormatterNif.parse_options withoutKey) := by
  constructor
  · intro options e h
    simp only [MarkdownFormatterNif.format_markdown] at h
    split at h
    · exact Except.noConfusion h
    · exact Except.noConfusion h
    · rename_i e0 heq
      exact ⟨e0, heq, (Except.error.inj h).symm⟩
  · intro options withoutKey kws1 kws2 k v hk hdec1 hdec2
    unfold MarkdownFormatterNif.parse_options
    rw [hdec1, hdec2]
    show (kws1 ++ (k, v) :: kws2).foldl MarkdownFormatterNif.applyPair
        MarkdownFormatterNif.FormatOptions.default =
      (kws1 ++ kws2).foldl MarkdownFormatterNif.applyPair
        MarkdownFormatterNif.FormatOptions.default
    rw [List.foldl_append, List.foldl_append, List.foldl_cons,
      applyPair_unrecognized _ (k, v) hk]

/-- Witness for C5: an engine error surfaces prefixed, and dropping the
unrecognized pair `bogus` leaves the parsed options unchanged. -/
theorem permissive_never_fails_witness :
    (∃ e0, constEngine (Except.error "x") "# Title"
        (MarkdownFormatterNif.buildConfig
          (MarkdownFormatterNif.parse_options (Term.list []))) = .error e0 ∧
        "Formatting error: x" = "Formatting error: " ++ e0) ∧
    MarkdownFormatterNif.parse_options
        (Term.list [Term.tuple [Term.atom "line_width", Term.int 100],
          Term.tuple [Term.atom "bogus", Term.int 1]]) =
      MarkdownFormatterNif.parse_options
        (Term.list [Term.tuple [Term.atom "line_width", Term.int 100]]) :=
  ⟨(permissive_never_fails "# Title" (constEngine (Except.error "x"))).1
      (Term.list []) "Formatting error: x" rfl,
    (permissive_never_fails "# Title" (constEngine (Except.error "x"))).2
      (Term.list [Term.tuple [Term.atom "line_width", Term.int 100],
        Term.tuple [Term.atom "bogus", Term.int 1]])
      (Term.list [Term.tuple [Term.atom "line_width", Term.int 100]])
      [("line_width", Term.int 100)] [] "bogus" (Term.int 1) rfl rfl rfl⟩

/-- One `applyPair` step seen through the `line_width` field. -/
theorem applyPair_line_width (fo : MarkdownFormatterNif.FormatOptions) (k : String) (v : Term) :
    (MarkdownFormatterNif.applyPair fo (k, v)).line_width =
      MarkdownFormatterNif.decodeStep "line_width" decodeU32 fo.line_width (k, v) := by
  unfold MarkdownFormatterNif.applyPair MarkdownFormatterNif.decodeStep
  split_ifs <;>
    first
      | rfl
      | (cases decodeU32 v <;> rfl)
      | (cases decodeStr v <;> rfl)

/-- One `applyPair` step seen through the `text_wrap` field. -/
theorem applyPair_text_wrap (fo : MarkdownFormatterNif.FormatOptions) (k : String) (v : Term) :
    (MarkdownFormatterNif.applyPair fo (k, v)).text_wrap =
      MarkdownFormatterNif.decodeStep "text_wrap" decodeStr fo.text_wrap (k, v) := by
  unfold MarkdownFormatterNif.applyPair MarkdownFormatterNif.decodeStep
  split_ifs <;>
    first
      | rfl
      | (cases decodeU32 v <;> rfl)
      | (cases decodeStr v <;> rfl)
      | simp_all

/-- One `applyPair` step seen through the `emphasis_kind` field. -/
theorem applyPair_emphasis_kind
    (fo : MarkdownFormatterNif.FormatOptions) (k : String) (v : Term) :
    (MarkdownFormatterNif.applyPair fo (k, v)).emphasis_kind =
      MarkdownFormatterNif.decodeStep "emphasis_kind" decodeStr fo.emphasis_kind (k, v) := by
  unfold MarkdownFormatterNif.applyPair MarkdownFormatterNif.decodeStep
  split_ifs <;>
    first
      | rfl
      | (cases decodeU32 v <;> rfl)
      | (cases decodeStr v <;> rfl)
      | simp_all

/-- One `applyPair` step seen through the `strong_kind` field. -/
theorem applyPair_strong_kind
    (fo : MarkdownFormatterNif.FormatOptions) (k : String) (v : Term) :
    (MarkdownFormatterNif.applyPair fo (k, v)).strong_kind =
      MarkdownFormatterNif.decodeStep "strong_kind" decodeStr fo.strong_kind (k, v) := by
  unfold MarkdownFormatterNif.applyPair MarkdownFormatterNif.decodeStep
  split_ifs <;>
    first
      | rfl
      | (cases decodeU32 v <;> rfl)
      | (cases decodeStr v <;> rfl)
      | simp_all

/-- One `applyPair` step seen through the `new_line_kind` field. -/
theorem applyPair_new_line_kind
    (fo : MarkdownFormatterNif.FormatOptions) (k : String) (v : Term) :
    (MarkdownFormatterNif.applyPair fo (k, v)).new_line_kind =
      MarkdownFormatterNif.decodeStep "new_line_kind" decodeStr fo.new_line_kind (k, v) := by
  unfold MarkdownFormatterNif.applyPair MarkdownFormatterNif.decodeStep
  split_ifs <;>
    first
      | rfl
      | (cases decodeU32 v <;> rfl)
      | (cases decodeStr v <;> rfl)
      | simp_all

/-- One `applyPair` step seen through the `unordered_list_kind` field. -/
theorem applyPair_unordered_list_kind
    (fo : MarkdownFormatterNif.FormatOptions) (k : String) (v : Term) :
    (MarkdownFormatterNif.applyPair fo (k, v)).unordered_list_kind =
      MarkdownFormatterNif.decodeStep "unordered_list_kind" decodeStr fo.unordered_list_kind (k, v) := by
  unfold MarkdownFormatterNif.applyPair MarkdownFormatterNif.decodeStep
  split_ifs <;>
    first
      | rfl
      | (cases decodeU32 v <;> rfl)
      | (cases decodeStr v <;> rfl)
      | simp_all

/-- Folding `applyPair` leaves each field holding the last decodable
occurrence of its key, starting from the accumulator's value. -/
theorem foldl_applyPair_fields (kws : List (String × Term))
    (fo : MarkdownFormatterNif.FormatOptions) :
    ((kws.foldl MarkdownFormatterNif.applyPair fo).line_width =
        MarkdownFormatterNif.lastDecodedValue "line_width" decodeU32 kws fo.line_width) ∧
    ((kws.foldl MarkdownFormatterNif.applyPair fo).text_wrap =
        MarkdownFormatterNif.lastDecodedValue "text_wrap" decodeStr kws fo.text_wrap) ∧
    ((kws.foldl MarkdownFormatterNif.applyPair fo).emphasis_kind =
        MarkdownFormatterNif.lastDecodedValue "emphasis_kind" decodeStr kws fo.emphasis_kind) ∧
    ((kws.foldl MarkdownFormatterNif.applyPair fo).strong_kind =
        MarkdownFormatterNif.lastDecodedValue "strong_kind" decodeStr kws fo.strong_kind) ∧
    ((kws.foldl MarkdownFormatterNif.applyPair fo).new_line_kind =
        MarkdownFormatterNif.lastDecodedValue "new_line_kind" decodeStr kws fo.new_line_kind) ∧
    ((kws.foldl MarkdownFormatterNif.applyPair fo).unordered_list_kind =
        MarkdownFormatterNif.lastDecodedValue "unordered_list_kind" decodeStr kws
          fo.unordered_list_kind) := by
  induction kws generalizing fo with
  | nil => exact ⟨rfl, rfl, rfl, rfl, rfl, rfl⟩
  | cons p rest ih =>
    obtain ⟨k, v⟩ := p
    have hstep := ih (MarkdownFormatterNif.applyPair fo (k, v))
    refine ⟨?_, ?_, ?_, ?_, ?_, ?_⟩
    · rw [List.foldl_cons, hstep.1, applyPair_line_width]
      rfl
    · rw [List.foldl_cons, hstep.2.1, applyPair_text_wrap]
      rfl
    · rw [List.foldl_cons, hstep.2.2.1, applyPair_emphasis_kind]
      rfl
    · rw [List.foldl_cons, hstep.2.2.2.1, applyPair_strong_kind]
      rfl
    · rw [List.foldl_cons, hstep.2.2.2.2.1, applyPair_new_line_kind]
      rfl
    · rw [List.foldl_cons, hstep.2.2.2.2.2, applyPair_unordered_list_kind]
      rfl

/-- C10: permissive policy — over a decoded atom-keyed keyword list, each
option field of the parsed result is the value of the last occurrence of its
key whose value decodes to the expected type; occurrences whose values fail to
decode are skipped and never overwrite an earlier decoded value. -/
theorem parse_options_last_occurrence (options : Term) (kws : List (String × Term))
    (hdec : MarkdownFormatterNif.decodeAtomKW options = some kws) :
    ((MarkdownFormatterNif.parse_options options).line_width =
        MarkdownFormatterNif.lastDecodedValue "line_width" decodeU32 kws none) ∧
    ((MarkdownFormatterNif.parse_options options).text_wrap =
        MarkdownFormatterNif.lastDecodedValue "text_wrap" decodeStr kws none) ∧
    ((MarkdownFormatterNif.parse_options options).emphasis_kind =
        MarkdownFormatterNif.lastDecodedValue "emphasis_kind" decodeStr kws none) ∧
    ((MarkdownFormatterNif.parse_options options).strong_kind =
        MarkdownFormatterNif.lastDecodedValue "strong_kind" decodeStr kws none) ∧
    ((MarkdownFormatterNif.parse_options options).new_line_kind =
        MarkdownFormatterNif.lastDecodedValue "new_line_kind" decodeStr kws none) ∧
    ((MarkdownFormatterNif.parse_options options).unordered_list_kind =
        MarkdownFormatterNif.lastDecodedValue "unordered_list_kind" decodeStr kws none) := by
  have hp : MarkdownFormatterNif.parse_options options =
      kws.foldl MarkdownFormatterNif.applyPair MarkdownFormatterNif.FormatOptions.default := by
    unfold MarkdownFormatterNif.parse_options
    rw [hdec]
  rw [hp]
  exact foldl_applyPair_fields kws MarkdownFormatterNif.FormatOptions.default

/-- Witness for C10: `line_width` given three times — decodable 100, an
undecodable string, then decodable 200; the parse keeps 200. -/
theorem parse_options_last_occurrence_witness :
    ((MarkdownFormatterNif.parse_options
        (Term.list [Term.tuple [Term.atom "line_width", Term.int 100],
          Term.tuple [Term.atom "line_width", Term.str "bad"],
          Term.tuple [Term.atom "line_width", Term.int 200]])).line_width =
      MarkdownFormatterNif.lastDecodedValue "line_width" decodeU32
        [("line_width", Term.int 100), ("line_width", Term.str "bad"),
          ("line_width", Term.int 200)] none) ∧
    ((MarkdownFormatterNif.parse_options
        (Term.list [Term.tuple [Term.atom "line_width", Term.int 100],
          Term.tuple [Term.atom "line_width", Term.str "bad"],
          Term.tuple [Term.atom "line_width", Term.int 200]])).text_wrap =
      MarkdownFormatterNif.lastDecodedValue "text_wrap" decodeStr
        [("line_width", Term.int 100), ("line_width", Term.str "bad"),
          ("line_width", Term.int 200)] none) ∧
    ((MarkdownFormatterNif.parse_options
        (Term.list [Term.tuple [Term.atom "line_width", Term.int 100],
          Term.tuple [Term.atom "line_width", Term.str "bad"],
          Term.tuple [Term.atom "line_width", Term.int 200]])).emphasis_kind =
      MarkdownFormatterNif.lastDecodedValue "emphasis_kind" decodeStr
        [("line_width", Term.int 100), ("line_width", Term.str "bad"),
          ("line_width", Term.int 200)] none) ∧
    ((MarkdownFormatterNif.parse_options
        (Term.list [Term.tuple [Term.atom "line_width", Term.int 100],
          Term.tuple [Term.atom "line_width", Term.str "bad"],
          Term.tuple [Term.atom "line_width", Term.int 200]])).strong_kind =
      MarkdownFormatterNif.lastDecodedValue "strong_kind" decodeStr
        [("line_width", Term.int 100), ("line_width", Term.str "bad"),
          ("line_width", Term.int 200)] none) ∧
    ((MarkdownFormatterNif.parse_options
        (Term.list [Term.tuple [Term.atom "line_width", Term.int 100],
          Term.tuple [Term.atom "line_width", Term.str "bad"],
          Term.tuple [Term.atom "line_width", Term.int 200]])).new_line_kind =
      MarkdownFormatterNif.lastDecodedValue "new_line_kind" decodeStr
        [("line_width", Term.int 100), ("line_width", Term.str "bad"),
          ("line_width", Term.int 200)] none) ∧
    ((MarkdownFormatterNif.parse_options
        (Term.list [Term.tuple [Term.atom "line_width", Term.int 100],
          Term.tuple [Term.atom "line_width", Term.str "bad"],
          Term.tuple [Term.atom "line_width", Term.int 200]])).unordered_list_kind =
      MarkdownFormatterNif.lastDecodedValue "unordered_list_kind" decodeStr
        [("line_width", Term.int 100), ("line_width", Term.str "bad"),
          ("line_width", Term.int 200)] none) :=
  parse_options_last_occurrence
    (Term.list [Term.tuple [Term.atom "line_width", Term.int 100],
      Term.tuple [Term.atom "line_width", Term.str "bad"],
      Term.tuple [Term.atom "line_width", Term.int 200]])
    [("line_width", Term.int 100), ("line_width", Term.str "bad"),
      ("line_width", Term.int 200)] rfl
